import Mathlib

set_option linter.unusedVariables false

/-!
Shallow embedding of `lib/hue-server.js` from node-red-contrib-node-hue.

The server keeps a registry of lights and a registry of subscribed Node-RED
nodes, polls the Hue bridge, dispatches change events to subscribers and
forwards consumer writes upstream.  Stateful JavaScript is embedded as
explicit state passing over a `LightServer` record; observable calls to the
outside world (warn/error channel, `node.send`, `node.status`, upstream
writes, timer management) are collected in an effect list, and a JavaScript
exception escaping a function is an `Option JsError` in the `Outcome`.

The per-light value object (`lib/hue-light.js`, class LightItem) and the
Node-RED adapter (`red/*.js`) are not among the sources; the handful of
fields and methods `hue-server.js` uses from them are modelled from the
spec, each marked `Modelled from the spec:` in its doc comment.
-/

/-- JavaScript value as it appears in the configuration and message fields
inspected by the server: a number, a string, or undefined. -/
inductive JsVal
  | num (q : ℚ)
  | str (s : String)
  | undefined
  deriving DecidableEq

/-- Exceptions the embedded code can raise: a TypeError (method access on
undefined or null) or an exception thrown by a consumer's send handler. -/
inductive JsError
  | typeError
  | consumerError
  deriving DecidableEq

/-- Status shown on a Node-RED node, set through `node.status` or through
LightItem.updateNodeStatus. -/
inductive NodeStatus
  | initial
  | ringStatus (fill shape text : String)
  | lightStatus (stateTok : Nat)
  deriving DecidableEq

/-- A registered Node-RED node: its output flag, whether its `send` handler
throws when invoked (a faulty consumer), and its current status display. -/
structure Node where
  isOutput : Bool
  sendFails : Bool
  status : NodeStatus
  deriving DecidableEq

/-- Modelled from the spec: the per-device value object
(`lib/hue-light.js`, class LightItem, not among the sources).  Only the
members `hue-server.js` touches are modelled: the stable `uniqueid`, the
upstream `info.id` and `info.name`, the suppression deadline `modified`
(seconds of process uptime), and an opaque canonical state token. -/
structure LightItem where
  uniqueid : String
  infoId : Nat
  infoName : String
  modified : ℚ
  state : Nat
  deriving DecidableEq

/-- One raw light payload from the Hue bridge, as consumed by
`addLight`/`updateInfo`: identity, upstream id, name and a canonical state
token standing for the semantically meaningful light state. -/
structure LightInfo where
  uniqueid : String
  id : Nat
  name : String
  state : Nat
  deriving DecidableEq

/-- Observable calls out of the server: the adapter's warn/error channel,
`node.send`, the upstream write, timer cancellation and `light.stop`. -/
inductive Effect
  | warn (msg : String)
  | errorReport (msg : String)
  | send (nodeID : String) (colors : Nat)
  | setLightState (infoId : Nat) (state : Nat) (transition : Option ℚ)
  | clearTimer
  | lightStop (uniqueid : String)
  deriving DecidableEq

/-- The LightServer state: the clamped configuration interval, the nested
subscription table `nodeList`, the light registry `lights`, and the poll
timer handle (`none` when no timer is armed, otherwise the interval it was
armed with). -/
structure LightServer where
  intervalConfig : JsVal
  nodeList : List (String × List (String × Node))
  lights : List (String × LightItem)
  lightPollInterval : Option JsVal
  deriving DecidableEq

/-- Result of running one embedded operation: the new server state, the
effects emitted so far in order, and the exception escaping the operation,
if any. -/
structure Outcome where
  state : LightServer
  effects : List Effect
  thrown : Option JsError
  deriving DecidableEq

/-- Lookup in an insertion-ordered string-keyed table (a JavaScript object
used as a dictionary). -/
def lookupA {α : Type} (l : List (String × α)) (k : String) : Option α :=
  match l with
  | [] => none
  | (k₂, v) :: rest => if k₂ = k then some v else lookupA rest k

/-- Assignment `obj[k] = v` on a string-keyed table: overwrites in place,
appends when the key is new (JavaScript objects keep insertion order for
string keys). -/
def updateA {α : Type} (l : List (String × α)) (k : String) (v : α) :
    List (String × α) :=
  match l with
  | [] => [(k, v)]
  | (k₂, v₂) :: rest =>
      if k₂ = k then (k, v) :: rest else (k₂, v₂) :: updateA rest k v

/-- JavaScript `undefined < q`: undefined coerces to NaN and every NaN
comparison is false. -/
def jsUndefinedLt (q : ℚ) : Bool := false

/-- hue-server.js line 54: the guard
`self.config.interval !== 'number' || self.interval < 500` followed by
`self.config.interval = 500`.  The left disjunct compares the interval value
itself against the string literal 'number' (there is no `typeof`), and
`self.interval` is undefined on the freshly constructed LightServer, so the
right disjunct is `undefined < 500`. -/
def clampInterval (interval : JsVal) : JsVal :=
  if interval ≠ JsVal.str "number" ∨ jsUndefinedLt 500 = true then JsVal.num 500
  else interval

/-- Modelled from the spec: LightItem.getColors renders the canonical state
as the consumer-facing value (`lib/hue-light.js` is not among the sources). -/
def getColors (light : LightItem) : Nat := light.state

/-- Modelled from the spec: LightItem.updateNodeStatus computes the
consumer-specific status from the light's current canonical state and shows
it on the node (`lib/hue-light.js` is not among the sources). -/
def updateNodeStatus (light : LightItem) (node : Node) : Node :=
  { node with status := NodeStatus.lightStatus light.state }

/-- The subscriber loop shared by the change handler of `addLight`
(hue-server.js lines 121-127) and by `statusUpdateLight` (lines 145-150):
for each registered node in key order, update its status from the light,
then, when the node is an output node, call `node.send` with the rendered
colors.  A consumer whose send handler throws aborts the loop at that node:
nodes later in the iteration keep their old status and receive nothing. -/
def notifyNodes (light : LightItem) (colors : Nat) :
    List (String × Node) → List (String × Node) × List Effect × Option JsError
  | [] => ([], [], none)
  | (nid, node) :: rest =>
      let node₂ := updateNodeStatus light node
      if node₂.isOutput then
        if node₂.sendFails then ((nid, node₂) :: rest, [], some JsError.consumerError)
        else
          let r := notifyNodes light colors rest
          ((nid, node₂) :: r.1, Effect.send nid colors :: r.2.1, r.2.2)
      else
        let r := notifyNodes light colors rest
        ((nid, node₂) :: r.1, r.2.1, r.2.2)

/-- The change-event handler installed by `addLight` (hue-server.js lines
116-128).  It reads `self.nodeList[light.uniqueid]` without any
`hasOwnProperty` guard and calls `Object.keys` on it, so when no node was
ever registered for this light the lookup yields undefined and
`Object.keys(undefined)` throws a TypeError. -/
def changeHandler (s : LightServer) (light : LightItem) : Outcome :=
  match lookupA s.nodeList light.uniqueid with
  | none => ⟨s, [], some JsError.typeError⟩
  | some nodes =>
      let r := notifyNodes light (getColors light) nodes
      ⟨{ s with nodeList := updateA s.nodeList light.uniqueid r.1 }, r.2.1, r.2.2⟩

/-- `LightServer.prototype.statusUpdateLight` (hue-server.js lines 140-152):
the same subscriber loop, but guarded by
`this.nodeList.hasOwnProperty(light.uniqueid)`, so an unknown key is a
no-op. -/
def statusUpdateLight (s : LightServer) (light : LightItem) : Outcome :=
  match lookupA s.nodeList light.uniqueid with
  | none => ⟨s, [], none⟩
  | some nodes =>
      let r := notifyNodes light (getColors light) nodes
      ⟨{ s with nodeList := updateA s.nodeList light.uniqueid r.1 }, r.2.1, r.2.2⟩

/-- Modelled from the spec: `new LightItem(info)` parses the raw payload
into the canonical per-device record, with no local write recorded yet. -/
def newLightItem (info : LightInfo) : LightItem :=
  ⟨info.uniqueid, info.id, info.name, 0, info.state⟩

/-- `LightServer.prototype.addLight` (hue-server.js lines 110-133): create
the LightItem, store it under its uniqueid, install the change handler and
run `statusUpdateLight` for nodes registered before the light appeared. -/
def addLight (s : LightServer) (info : LightInfo) : Outcome :=
  let light := newLightItem info
  let s₂ := { s with lights := updateA s.lights light.uniqueid light }
  statusUpdateLight s₂ light

/-- Modelled from the spec: LightItem.updateInfo (`lib/hue-light.js` is not
among the sources).  Per spec section 4.2, on a known device it checks
whether the semantically meaningful state differs from the stored state
and, only if so and the current time is past the suppression deadline
`modified`, updates the stored state and raises the change event
(the returned flag). -/
def updateInfo (now : ℚ) (light : LightItem) (info : LightInfo) :
    LightItem × Bool :=
  if info.state ≠ light.state ∧ light.modified ≤ now then
    ({ light with state := info.state }, true)
  else (light, false)

/-- One iteration of the `forEach` body in `processLights` (hue-server.js
lines 23-31): add the light when unseen, otherwise update it, firing the
change handler when the update reported a real change. -/
def processOne (now : ℚ) (s : LightServer) (info : LightInfo) : Outcome :=
  match lookupA s.lights info.uniqueid with
  | none => addLight s info
  | some light =>
      let r := updateInfo now light info
      let s₂ := { s with lights := updateA s.lights info.uniqueid r.1 }
      if r.2 then changeHandler s₂ r.1 else ⟨s₂, [], none⟩

/-- JavaScript `null.toString()`: throws a TypeError.  In the catch block of
`processLights` (hue-server.js line 33) the value formatted is the fetch
callback's `err` argument, which is always null when the forEach body runs,
because a non-null `err` returned early at line 18. -/
def nullToString : Except JsError String := Except.error JsError.typeError

/-- The `forEach` loop of `processLights` (hue-server.js lines 23-35).  Each
body runs in a try/catch; the catch handler evaluates `err.toString()` on
the null fetch error instead of the caught exception `e`, which itself
throws a TypeError, aborting the loop and leaving the remaining payloads
unprocessed. -/
def processList (now : ℚ) (s : LightServer) : List LightInfo → Outcome
  | [] => ⟨s, [], none⟩
  | info :: rest =>
      let o := processOne now s info
      match o.thrown with
      | none =>
          let o₂ := processList now o.state rest
          ⟨o₂.state, o.effects ++ o₂.effects, o₂.thrown⟩
      | some _ =>
          match nullToString with
          | Except.ok msg =>
              let o₂ := processList now o.state rest
              ⟨o₂.state, o.effects ++ Effect.warn msg :: o₂.effects, o₂.thrown⟩
          | Except.error e₂ => ⟨o.state, o.effects, some e₂⟩

/-- Result of one fetch of the light list from the Hue bridge: the node
style callback either gets a non-null error or the payload list. -/
inductive FetchResult
  | fetchErr (msg : String)
  | fetchOk (infos : List LightInfo)
  deriving DecidableEq

/-- `processLights` (hue-server.js lines 17-36): on a fetch error, warn and
return without touching any light; otherwise run the merge loop. -/
def processLights (now : ℚ) (s : LightServer) (res : FetchResult) : Outcome :=
  match res with
  | FetchResult.fetchErr msg => ⟨s, [Effect.warn msg], none⟩
  | FetchResult.fetchOk infos => processList now s infos

/-- `huePoll` (hue-server.js lines 11-40): request the light list and hand
the response to `processLights`. -/
def huePoll (now : ℚ) (s : LightServer) (res : FetchResult) : Outcome :=
  processLights now s res

/-- Configuration handed to the LightServer constructor. -/
structure HueConfig where
  address : String
  key : String
  interval : JsVal
  deriving DecidableEq

/-- The synchronous part of the LightServer constructor (hue-server.js lines
48-65 and 82-83): clamp the interval, start with empty node and light
registries and no armed timer. -/
def mkLightServer (config : HueConfig) : LightServer :=
  ⟨clampInterval config.interval, [], [], none⟩

/-- The `data.lights.forEach(addLight)` loop of the constructor's initial
fetch callback (hue-server.js lines 74-76); it has no try/catch, so an
exception from `addLight` aborts the loop and escapes. -/
def addAll (s : LightServer) : List LightInfo → Outcome
  | [] => ⟨s, [], none⟩
  | info :: rest =>
      let o := addLight s info
      match o.thrown with
      | none =>
          let o₂ := addAll o.state rest
          ⟨o₂.state, o.effects ++ o₂.effects, o₂.thrown⟩
      | some e => ⟨o.state, o.effects, some e⟩

/-- The constructor's initial fetch callback (hue-server.js lines 68-80):
on error, report through the adapter's error channel and return without
arming the poll timer; on success, add every light and only then arm
`setInterval` at the stored configuration interval. -/
def initialFetch (s : LightServer) (res : FetchResult) : Outcome :=
  match res with
  | FetchResult.fetchErr msg => ⟨s, [Effect.errorReport msg], none⟩
  | FetchResult.fetchOk infos =>
      let o := addAll s infos
      match o.thrown with
      | some _ => o
      | none =>
          ⟨{ o.state with lightPollInterval := some o.state.intervalConfig },
           o.effects, none⟩

/-- Construction followed by delivery of the initial fetch result: the whole
observable behavior of `new LightServer(config)` for a given upstream
response. -/
def start (config : HueConfig) (res : FetchResult) : Outcome :=
  initialFetch (mkLightServer config) res

/-- One row of the listing returned by `getLights`. -/
structure LightEntry where
  id : String
  info : Nat
  name : String
  deriving DecidableEq

/-- `LightServer.prototype.getLights` (hue-server.js lines 241-251): a fresh
array of `{id, info, name}` projections of every known light, in key
order. -/
def getLights (s : LightServer) : List LightEntry :=
  s.lights.map (fun p => ⟨p.2.uniqueid, p.2.infoId, p.2.infoName⟩)

/-- `LightServer.prototype.stop` (hue-server.js lines 90-102): clear the
interval when one is armed, null the handle, stop every light and empty the
light registry.  `light.stop` itself lives in the missing
`lib/hue-light.js` and is modelled as a pure release effect. -/
def stop (s : LightServer) : Outcome :=
  let clearEffs := if s.lightPollInterval = none then [] else [Effect.clearTimer]
  let stopEffs := s.lights.map (fun p => Effect.lightStop p.1)
  ⟨{ s with lightPollInterval := none, lights := [] }, clearEffs ++ stopEffs, none⟩

/-- The desired-change message handed to `lightChange`: its optional
`duration` field as a raw JavaScript value, plus an opaque payload token
standing for the attribute changes `updateColor` applies. -/
structure HueChange where
  duration : JsVal
  payload : Nat
  deriving DecidableEq

/-- Modelled from the spec: LightItem.updateColor applies the desired change
optimistically to the canonical state (`lib/hue-light.js` is not among the
sources). -/
def updateColor (light : LightItem) (value : HueChange) : LightItem :=
  { light with state := value.payload }

/-- Modelled from the spec: LightItem.getLightState renders the canonical
state as an upstream write request (`lib/hue-light.js` is not among the
sources). -/
def getLightState (light : LightItem) : Nat := light.state

/-- `LightServer.prototype.lightChange` (hue-server.js lines 202-234):
silently return when the id is unknown; otherwise set
`modified = uptime + 1`, apply the change, build the write request, and
when `typeof value.duration === 'number' && value.duration > 0` attach the
transition and add `Math.floor(1 + duration/1000)` to `modified`; finally
issue the upstream write. -/
def lightChange (s : LightServer) (now : ℚ) (lightID : String)
    (value : HueChange) : Outcome :=
  match lookupA s.lights lightID with
  | none => ⟨s, [], none⟩
  | some light₀ =>
      let light₁ := { light₀ with modified := now + 1 }
      let light₂ := updateColor light₁ value
      let st := getLightState light₂
      match value.duration with
      | JsVal.num d =>
          if 0 < d then
            let light₃ :=
              { light₂ with modified := light₂.modified + ((⌊1 + d / 1000⌋ : ℤ) : ℚ) }
            ⟨{ s with lights := updateA s.lights lightID light₃ },
             [Effect.setLightState light₃.infoId st (some d)], none⟩
          else
            ⟨{ s with lights := updateA s.lights lightID light₂ },
             [Effect.setLightState light₂.infoId st none], none⟩
      | _ =>
          ⟨{ s with lights := updateA s.lights lightID light₂ },
           [Effect.setLightState light₂.infoId st none], none⟩

/-- Store a node under `nodeList[lightID][nodeID]`, creating the inner table
when absent (hue-server.js lines 162-164). -/
def putNode (s : LightServer) (lightID nodeID : String) (node : Node) :
    LightServer :=
  let inner := (lookupA s.nodeList lightID).getD []
  { s with nodeList := updateA s.nodeList lightID (updateA inner nodeID node) }

/-- `LightServer.prototype.nodeRegister` (hue-server.js lines 161-177):
store the node, then either push the current status and (for an output
node) the current colors when the light is known, or show the red ring
"unknown" status when it is not. -/
def nodeRegister (s : LightServer) (lightID nodeID : String) (node : Node) :
    Outcome :=
  match lookupA s.lights lightID with
  | some light =>
      let node₂ := updateNodeStatus light node
      let s₂ := putNode s lightID nodeID node₂
      if node₂.isOutput then
        if node₂.sendFails then ⟨s₂, [], some JsError.consumerError⟩
        else ⟨s₂, [Effect.send nodeID (getColors light)], none⟩
      else ⟨s₂, [], none⟩
  | none =>
      let node₂ := { node with status := NodeStatus.ringStatus "red" "ring" "unknown" }
      ⟨putNode s lightID nodeID node₂, [], none⟩

/-- Statement helper: the positive numeric transition duration of a change
message, when the message carries one
(`typeof value.duration === 'number' && value.duration > 0`). -/
def posDuration : JsVal → Option ℚ
  | JsVal.num d => if 0 < d then some d else none
  | _ => none

/-- Statement helper: the node registered under `nodeList[lightID][nodeID]`. -/
def lookupNode (s : LightServer) (lightID nodeID : String) : Option Node :=
  lookupA ((lookupA s.nodeList lightID).getD []) nodeID

/-- Statement helper: the nodes of a prefix of the subscriber table after
their status was refreshed from the light. -/
def notifiedNodes (light : LightItem) (pre : List (String × Node)) :
    List (String × Node) :=
  pre.map (fun q => (q.1, updateNodeStatus light q.2))

/-- Statement helper: the send effects produced for the output nodes of a
prefix of the subscriber table. -/
def sendEffects (colors : Nat) (pre : List (String × Node)) : List Effect :=
  (pre.filter (fun q => q.2.isOutput)).map (fun q => Effect.send q.1 colors)

theorem lookupA_updateA_self {α : Type} (l : List (String × α)) (k : String)
    (v : α) : lookupA (updateA l k v) k = some v := by
  induction l with
  | nil => simp [updateA, lookupA]
  | cons p rest ih =>
      by_cases h : p.1 = k
      · simp [updateA, lookupA, h]
      · simp [updateA, lookupA, h, ih]

/-- A sample light used by concrete witnesses and counterexamples. -/
def sampleLight : LightItem := ⟨"L1", 3, "lamp", 0, 0⟩

/-- A server that knows `sampleLight` and has no registered nodes. -/
def oneLightServer : LightServer :=
  ⟨JsVal.num 500, [], [("L1", sampleLight)], some (JsVal.num 500)⟩

/-- A server with no lights and no registered nodes. -/
def emptyServer : LightServer := ⟨JsVal.num 500, [], [], none⟩

/-- Claim C2: the constructor was meant to clamp a non-numeric or too-low
interval to the 500 ms floor and keep every valid interval, but line 54
omits `typeof` and tests the undefined `self.interval`, so every interval
is overwritten with 500 — including the valid 1000 — while the literal
string 'number' is accepted unchanged; the timer armed after a successful
fetch therefore runs at 500, not at the configured 1000. -/
theorem interval_clamp_code_bug :
    clampInterval (JsVal.num 1000) = JsVal.num 500 ∧
    clampInterval (JsVal.str "number") = JsVal.str "number" ∧
    (start ⟨"addr", "key", JsVal.num 1000⟩ (FetchResult.fetchOk [])).state.lightPollInterval
      = some (JsVal.num 500) := by
  refine ⟨by decide, by decide, rfl⟩

/-- Claim C3: when the initial fetch fails, the failure is reported on the
error channel, the poll timer is never armed, no light record is created,
and `getLights` returns the empty list — the server stays inert. -/
theorem start_fetch_failure_leaves_hub_inert (config : HueConfig) (msg : String) :
    (start config (FetchResult.fetchErr msg)).state.lights = [] ∧
    (start config (FetchResult.fetchErr msg)).state.lightPollInterval = none ∧
    getLights (start config (FetchResult.fetchErr msg)).state = [] ∧
    (start config (FetchResult.fetchErr msg)).effects = [Effect.errorReport msg] ∧
    (start config (FetchResult.fetchErr msg)).thrown = none :=
  ⟨rfl, rfl, rfl, rfl, rfl⟩

/-- Claim C7: `stop` cancels the timer and releases every light record, and
a second consecutive call returns the very same state with no effects and
no exception. -/
theorem stop_idempotent_releases_all (s : LightServer) :
    (stop s).state.lightPollInterval = none ∧
    (stop s).state.lights = [] ∧
    (stop s).thrown = none ∧
    stop (stop s).state = ⟨(stop s).state, [], none⟩ :=
  ⟨rfl, rfl, rfl, rfl⟩

/-- Claim C8: a failed fetch on a poll tick only emits a warning: the server
state — light records, subscriptions and the timer handle included — is
returned unchanged, nothing is dispatched and no exception escapes, so the
timer keeps running for the next tick. -/
theorem huePoll_fetch_error_skips_pass (now : ℚ) (s : LightServer) (msg : String) :
    huePoll now s (FetchResult.fetchErr msg) = ⟨s, [Effect.warn msg], none⟩ :=
  rfl

/-- Claim C1: `lightChange` on a registered light always stores a
suppression deadline strictly in the future: `now + 1` second, and when the
change carries a numeric transition duration greater than zero the deadline
is `now + 1 + Math.floor(1 + duration/1000)` seconds, which covers the full
transition (duration is in milliseconds) plus at least one second of
slack. -/
theorem lightChange_sets_suppression_deadline
    (s : LightServer) (now : ℚ) (lightID : String) (dur : JsVal) (payload : Nat)
    (light₀ : LightItem) (h : lookupA s.lights lightID = some light₀) :
    ∃ light₁,
      lookupA (lightChange s now lightID ⟨dur, payload⟩).state.lights lightID
        = some light₁ ∧
      now < light₁.modified ∧
      (match posDuration dur with
       | some d =>
           light₁.modified = now + 1 + ((⌊1 + d / 1000⌋ : ℤ) : ℚ) ∧
           now + d / 1000 + 1 ≤ light₁.modified
       | none => light₁.modified = now + 1) := by
  cases dur with
  | num d =>
      by_cases hd : 0 < d
      · have hx : (d / 1000 : ℚ) < ⌊(d / 1000 : ℚ)⌋ + 1 := Int.lt_floor_add_one _
        have hfl : ⌊(1 : ℚ) + d / 1000⌋ = ⌊(d / 1000 : ℚ)⌋ + 1 := by
          rw [add_comm]
          exact Int.floor_add_one _
        have h0 : (0 : ℤ) ≤ ⌊(d / 1000 : ℚ)⌋ := Int.floor_nonneg.mpr (by positivity)
        simp only [lightChange, h, posDuration, hd, if_true, updateColor]
        refine ⟨_, lookupA_updateA_self _ _ _, ?_, ?_, ?_⟩
        · show now < now + 1 + ((⌊(1 : ℚ) + d / 1000⌋ : ℤ) : ℚ)
          rw [hfl]
          push_cast
          linarith
        · rfl
        · show now + d / 1000 + 1 ≤ now + 1 + ((⌊(1 : ℚ) + d / 1000⌋ : ℤ) : ℚ)
          rw [hfl]
          push_cast
          linarith
      · simp only [lightChange, h, posDuration, hd, if_false, updateColor]
        refine ⟨_, lookupA_updateA_self _ _ _, ?_, rfl⟩
        show now < now + 1
        linarith
  | str t =>
      simp only [lightChange, h, posDuration, updateColor]
      refine ⟨_, lookupA_updateA_self _ _ _, ?_, rfl⟩
      show now < now + 1
      linarith
  | undefined =>
      simp only [lightChange, h, posDuration, updateColor]
      refine ⟨_, lookupA_updateA_self _ _ _, ?_, rfl⟩
      show now < now + 1
      linarith

/-- Concrete witness for claim C1: writing a change with a 2000 ms
transition to the sample light at uptime 0 stores deadline 0 + 1 + 3 = 4. -/
theorem lightChange_sets_suppression_deadline_witness :
    ∃ light₁,
      lookupA (lightChange oneLightServer 0 "L1" ⟨JsVal.num 2000, 5⟩).state.lights "L1"
        = some light₁ ∧
      (0 : ℚ) < light₁.modified ∧
      (match posDuration (JsVal.num 2000) with
       | some d =>
           light₁.modified = 0 + 1 + ((⌊1 + d / 1000⌋ : ℤ) : ℚ) ∧
           (0 : ℚ) + d / 1000 + 1 ≤ light₁.modified
       | none => light₁.modified = 0 + 1) :=
  lightChange_sets_suppression_deadline oneLightServer 0 "L1" (JsVal.num 2000) 5
    sampleLight rfl

/-- Counterexample to claim C5 as stated: a write against the unregistered
id "nope" emits no effect at all — no DeviceNotFound (or any other) report
reaches the caller or any channel — and raises nothing; it merely leaves
the state untouched. -/
theorem lightChange_unknown_id_reports_nothing_cex :
    lightChange emptyServer 0 "nope" ⟨JsVal.undefined, 0⟩ = ⟨emptyServer, [], none⟩ :=
  rfl

/-- Claim C5 as amended: a write against an unregistered id is a silent
no-op — `lightChange` returns without reporting anything, without raising,
and without mutating any server state (no record, subscription or upstream
effect). -/
theorem lightChange_unknown_id_silent_noop
    (s : LightServer) (now : ℚ) (lightID : String) (value : HueChange)
    (h : lookupA s.lights lightID = none) :
    lightChange s now lightID value = ⟨s, [], none⟩ := by
  simp only [lightChange, h]

/-- Concrete witness for the amended claim C5: writing to the id "missing"
on a server that knows only "L1" changes nothing and reports nothing. -/
theorem lightChange_unknown_id_silent_noop_witness :
    lightChange oneLightServer 7 "missing" ⟨JsVal.num 100, 2⟩
      = ⟨oneLightServer, [], none⟩ :=
  lightChange_unknown_id_silent_noop oneLightServer 7 "missing" ⟨JsVal.num 100, 2⟩ rfl

/-- A well-behaved output node fixture. -/
def okNode : Node := ⟨true, false, NodeStatus.initial⟩

/-- An output node fixture whose send handler throws. -/
def badNode : Node := ⟨true, true, NodeStatus.initial⟩

/-- Claim C6: registering a node for a known light updates the stored
node's status from the light during the call itself and, for an output
node whose send does not throw, delivers the current rendered colors as
the only effect of the call; registering for an unknown light immediately
stores the red-ring "unknown" status and delivers nothing — in neither
case does the subscriber wait for a poll tick. -/
theorem nodeRegister_immediate_status_delivery
    (s : LightServer) (lightID nodeID : String) (node : Node) :
    match lookupA s.lights lightID with
    | some light =>
        lookupNode (nodeRegister s lightID nodeID node).state lightID nodeID
          = some { node with status := NodeStatus.lightStatus light.state } ∧
        (node.isOutput = true → node.sendFails = false →
          (nodeRegister s lightID nodeID node).effects
            = [Effect.send nodeID (getColors light)] ∧
          (nodeRegister s lightID nodeID node).thrown = none) ∧
        (node.isOutput = false →
          (nodeRegister s lightID nodeID node).effects = [] ∧
          (nodeRegister s lightID nodeID node).thrown = none)
    | none =>
        lookupNode (nodeRegister s lightID nodeID node).state lightID nodeID
          = some { node with status := NodeStatus.ringStatus "red" "ring" "unknown" } ∧
        (nodeRegister s lightID nodeID node).effects = [] ∧
        (nodeRegister s lightID nodeID node).thrown = none := by
  cases hl : lookupA s.lights lightID with
  | some light =>
      by_cases ho : node.isOutput
      · by_cases hf : node.sendFails
        · simp [nodeRegister, hl, putNode, lookupNode, updateNodeStatus, ho, hf,
                lookupA_updateA_self]
        · simp [nodeRegister, hl, putNode, lookupNode, updateNodeStatus, ho, hf,
                lookupA_updateA_self]
      · simp [nodeRegister, hl, putNode, lookupNode, updateNodeStatus, ho,
              lookupA_updateA_self]
  | none =>
      simp [nodeRegister, hl, putNode, lookupNode, lookupA_updateA_self]

/-- Concrete witness for claim C6: registering the well-behaved output node
under "n0" for the known light "L1" stores its refreshed status and sends
it the current colors within the call. -/
theorem nodeRegister_immediate_status_delivery_witness :
    lookupNode (nodeRegister oneLightServer "L1" "n0" okNode).state "L1" "n0"
      = some { okNode with status := NodeStatus.lightStatus sampleLight.state } ∧
    (nodeRegister oneLightServer "L1" "n0" okNode).effects
      = [Effect.send "n0" (getColors sampleLight)] ∧
    (nodeRegister oneLightServer "L1" "n0" okNode).thrown = none :=
  ⟨(nodeRegister_immediate_status_delivery oneLightServer "L1" "n0" okNode).1,
   (nodeRegister_immediate_status_delivery oneLightServer "L1" "n0" okNode).2.1 rfl rfl⟩

/-- Claim C9: when a light's change event fires and no node was ever
registered for its id, the change handler installed by `addLight` hits the
unguarded `Object.keys(self.nodeList[light.uniqueid])` and throws a
TypeError instead of completing as a no-op, whereas `statusUpdateLight`,
whose lookup is guarded by `hasOwnProperty`, is a clean no-op on the very
same state. -/
theorem change_fanout_unregistered_throws
    (s : LightServer) (light : LightItem)
    (h : lookupA s.nodeList light.uniqueid = none) :
    changeHandler s light = ⟨s, [], some JsError.typeError⟩ ∧
    statusUpdateLight s light = ⟨s, [], none⟩ := by
  constructor
  · simp only [changeHandler, h]
  · simp only [statusUpdateLight, h]

/-- Concrete witness for claim C9: on the server that knows light "L1" but
has an empty subscription table, the change handler throws a TypeError
while `statusUpdateLight` is a no-op. -/
theorem change_fanout_unregistered_throws_witness :
    changeHandler oneLightServer sampleLight
      = ⟨oneLightServer, [], some JsError.typeError⟩ ∧
    statusUpdateLight oneLightServer sampleLight = ⟨oneLightServer, [], none⟩ :=
  change_fanout_unregistered_throws oneLightServer sampleLight rfl

/-- Claim C10: when processing one device of a successful poll throws, the
catch block of `processLights` evaluates `err.toString()` on the null fetch
error instead of the caught exception, so the handler itself throws a
TypeError: the pass ends with that TypeError, keeping only the state and
effects accumulated up to the faulting device — the remaining payloads of
the snapshot are never processed. -/
theorem processList_catch_formats_null_err
    (now : ℚ) (s : LightServer) (info : LightInfo) (rest : List LightInfo)
    (e : JsError) (h : (processOne now s info).thrown = some e) :
    processList now s (info :: rest)
      = ⟨(processOne now s info).state, (processOne now s info).effects,
         some JsError.typeError⟩ := by
  simp only [processList, nullToString, h]

/-- Concrete witness for claim C10: a poll reporting a changed "L1" (whose
dispatch throws, no node being registered) followed by a brand-new "L2"
aborts with a TypeError, and "L2" is never added to the registry. -/
theorem processList_catch_formats_null_err_witness :
    processList 5 oneLightServer [⟨"L1", 3, "lamp", 7⟩, ⟨"L2", 4, "desk", 0⟩]
      = ⟨(processOne 5 oneLightServer ⟨"L1", 3, "lamp", 7⟩).state,
         (processOne 5 oneLightServer ⟨"L1", 3, "lamp", 7⟩).effects,
         some JsError.typeError⟩ ∧
    lookupA (processList 5 oneLightServer
        [⟨"L1", 3, "lamp", 7⟩, ⟨"L2", 4, "desk", 0⟩]).state.lights "L2" = none :=
  ⟨processList_catch_formats_null_err 5 oneLightServer ⟨"L1", 3, "lamp", 7⟩
      [⟨"L2", 4, "desk", 0⟩] JsError.typeError rfl,
   by decide⟩

theorem notifyNodes_abort (light : LightItem) (colors : Nat) (nid : String)
    (bad : Node) (post : List (String × Node)) (hout : bad.isOutput = true)
    (hfail : bad.sendFails = true) :
    ∀ pre : List (String × Node), (∀ q ∈ pre, q.2.sendFails = false) →
      notifyNodes light colors (pre ++ (nid, bad) :: post)
        = (notifiedNodes light pre ++ (nid, updateNodeStatus light bad) :: post,
           sendEffects colors pre, some JsError.consumerError) := by
  intro pre
  induction pre with
  | nil =>
      intro _
      simp [notifyNodes, updateNodeStatus, hout, hfail, notifiedNodes, sendEffects]
  | cons q pre ih =>
      intro hpre
      obtain ⟨qid, qn⟩ := q
      have hq : qn.sendFails = false := hpre (qid, qn) (List.mem_cons_self _ _)
      have hrest : ∀ r ∈ pre, r.2.sendFails = false := fun r hr =>
        hpre r (List.mem_cons_of_mem _ hr)
      by_cases hqo : qn.isOutput
      · simp [notifyNodes, updateNodeStatus, hqo, hq, ih hrest, notifiedNodes,
              sendEffects, List.filter_cons]
      · simp [notifyNodes, updateNodeStatus, hqo, hq, ih hrest, notifiedNodes,
              sendEffects, List.filter_cons]

/-- A server with the sample light and three subscribers for it, the middle
one a faulty consumer whose send throws. -/
def c4server : LightServer :=
  ⟨JsVal.num 500, [("L1", [("n0", okNode), ("n1", badNode), ("n2", okNode)])],
   [("L1", sampleLight)], some (JsVal.num 500)⟩

/-- Counterexample to claim C4 as stated: with three subscribers n0, n1, n2
registered in that order for the sample light, n1's send throwing makes the
exception escape the fan-out (it is not caught or reported), and n2 — a
subscribed consumer — is never notified: the only delivery is to n0. -/
theorem changeHandler_delivery_failure_propagates_cex :
    (changeHandler c4server sampleLight).thrown = some JsError.consumerError ∧
    Effect.send "n2" (getColors sampleLight)
      ∉ (changeHandler c4server sampleLight).effects ∧
    (changeHandler c4server sampleLight).effects
      = [Effect.send "n0" (getColors sampleLight)] := by
  decide

/-- Claim C4 as amended: the change fan-out iterates the subscribers in
registration order with no per-consumer error isolation — when one
consumer's send throws, the exception escapes the dispatcher unreported,
the consumers before it in the table have been notified (status refresh,
and a send for each output node), and the failing consumer and every
consumer after it receive no delivery: the effects are exactly the sends
for the output nodes of the prefix, and the suffix keeps its old status. -/
theorem changeHandler_delivery_failure_aborts_fanout
    (s : LightServer) (light : LightItem)
    (pre : List (String × Node)) (nid : String) (bad : Node)
    (post : List (String × Node))
    (h : lookupA s.nodeList light.uniqueid = some (pre ++ (nid, bad) :: post))
    (hpre : ∀ q ∈ pre, q.2.sendFails = false)
    (hout : bad.isOutput = true) (hfail : bad.sendFails = true) :
    changeHandler s light
      = ⟨{ s with nodeList := (updateA s.nodeList light.uniqueid
             (notifiedNodes light pre ++ (nid, updateNodeStatus light bad) :: post)) },
         sendEffects (getColors light) pre,
         some JsError.consumerError⟩ := by
  simp only [changeHandler, h,
    notifyNodes_abort light (getColors light) nid bad post hout hfail pre hpre]

/-- Concrete witness for the amended claim C4: on the three-subscriber
server, dispatch notifies n0, aborts at n1 with the consumer's exception,
and leaves n2 untouched. -/
theorem changeHandler_delivery_failure_aborts_fanout_witness :
    changeHandler c4server sampleLight
      = ⟨{ c4server with
             nodeList := (updateA c4server.nodeList sampleLight.uniqueid
               (notifiedNodes sampleLight [("n0", okNode)]
                 ++ ("n1", updateNodeStatus sampleLight badNode) :: [("n2", okNode)])) },
         sendEffects (getColors sampleLight) [("n0", okNode)],
         some JsError.consumerError⟩ :=
  changeHandler_delivery_failure_aborts_fanout c4server sampleLight
    [("n0", okNode)] "n1" badNode [("n2", okNode)] rfl (by decide) rfl rfl
